import Mathlib

/-!
Shallow embedding of the openade electronic-receipts chain
(PEM journal manager, document builder, PEM session manager,
PEL ingestion server, PEL aggregation, audit server).

Monetary amounts are modelled as rationals (the source uses JS numbers);
`Math.round(x * 100) / 100` is modelled as `round2`, with JS round-half-up
semantics `⌊x + 1/2⌋`.  Timestamps (`new Date().toISOString()`) are
nondeterministic in the source and are passed as explicit string parameters.
The SHA-256 digest of `JSON.stringify {type, timestamp, data, previousHash}`
is modelled as a free constructor over exactly those four fields
(`HashV.digest`), which renders the standard collision-resistance
idealisation: distinct inputs give distinct hashes, and no input collides
with the genesis constant `'0'.repeat 64` (`HashV.genesis`).
-/

namespace OpenADE

/- The Batteries rational-number operations are `@[irreducible]`, which
blocks kernel evaluation of the model on concrete inputs; restore their
definitional behaviour for this development so that witnesses can be
checked by `decide`/`rfl`. -/
unseal Rat.mul Rat.inv Rat.add Rat.sub

/-- JS `Math.round (x * 100) / 100` (round half toward +∞, as JS does). -/
def round2 (x : ℚ) : ℚ := ((⌊x * 100 + 1 / 2⌋ : ℤ) : ℚ) / 100

/-! ## Common data model (from `@openade/common` usage across the sources) -/

/-- Taxpayer record (`contribuente`).  `codiceFiscale` is optional: the
document builder does not set it. -/
structure Contribuente where
  partitaIVA : String
  denominazione : String
  regimeFiscale : String
  codiceFiscale : Option String
deriving DecidableEq

/-- One line of `dettaglioLinee`. -/
structure DettaglioLinea where
  numeroLinea : Nat
  descrizione : String
  quantita : ℚ
  prezzoUnitario : ℚ
  prezzoTotale : ℚ
  aliquotaIVA : ℚ
deriving DecidableEq

/-- One VAT summary group of `datiRiepilogo`. -/
structure Riepilogo where
  aliquotaIVA : Option ℚ
  natura : Option String
  imponibile : ℚ
  imposta : ℚ
deriving DecidableEq

/-- `datiGenerali` of a commercial document. -/
structure DatiGenerali where
  tipoDocumento : String
  numero : String
  dataOra : String
deriving DecidableEq

/-- Commercial document (receipt), `DocumentoCommerciale`. -/
structure DocumentoCommerciale where
  versione : String
  contribuente : Contribuente
  identificativoPEM : String
  datiGenerali : DatiGenerali
  dettaglioLinee : List DettaglioLinea
  datiRiepilogo : List Riepilogo
  importoTotale : ℚ
deriving DecidableEq

/-! ## Document Builder (`document.builder.ts`) -/

/-- Input line for the builder. -/
structure DocumentLine where
  description : String
  quantity : ℚ
  unitPrice : ℚ
  vatRate : ℚ
deriving DecidableEq

/-- Builder configuration. -/
structure BuilderConfig where
  vatNumber : String
  businessName : String
  pemId : String
deriving DecidableEq

/-- `line.quantity * line.unitPrice`. -/
def lineTotal (l : DocumentLine) : ℚ := l.quantity * l.unitPrice

/-- Accumulate `(taxable, tax)` into the insertion-ordered VAT-rate map
(the JS `Map.set` on an existing key updates in place, otherwise appends). -/
def addVatLine (gs : List (ℚ × ℚ × ℚ)) (rate taxable tax : ℚ) :
    List (ℚ × ℚ × ℚ) :=
  match gs with
  | [] => [(rate, taxable, tax)]
  | (r, imp, ta) :: rest =>
      if r = rate then (r, imp + taxable, ta + tax) :: rest
      else (r, imp, ta) :: addVatLine rest rate taxable tax

/-- The builder's `vatGroups` map: for each line,
`taxable = total / (1 + vatRate / 100)`, `tax = total - taxable`,
accumulated per VAT rate (unrounded). -/
def vatGroups (lines : List DocumentLine) : List (ℚ × ℚ × ℚ) :=
  lines.foldl
    (fun gs line =>
      let total := lineTotal line
      let taxable := total / (1 + line.vatRate / 100)
      let tax := total - taxable
      addVatLine gs line.vatRate taxable tax)
    []

/-- `DocumentBuilder.build(lines, documentNumber)`.  The source performs no
input validation: every input produces a document.  `dataOra` stands for
the `new Date().toISOString()` call. -/
def build (cfg : BuilderConfig) (lines : List DocumentLine)
    (documentNumber dataOra : String) : DocumentoCommerciale :=
  let dettaglioLinee := (lines.enum).map fun li =>
    { numeroLinea := li.1 + 1
      descrizione := li.2.description
      quantita := li.2.quantity
      prezzoUnitario := li.2.unitPrice
      prezzoTotale := li.2.quantity * li.2.unitPrice
      aliquotaIVA := li.2.vatRate : DettaglioLinea }
  let datiRiepilogo := (vatGroups lines).map fun g =>
    { aliquotaIVA := some g.1
      natura := none
      imponibile := round2 g.2.1
      imposta := round2 g.2.2 : Riepilogo }
  let totalAmount := lines.foldl (fun sum line => sum + lineTotal line) 0
  { versione := "1.0"
    contribuente :=
      { partitaIVA := cfg.vatNumber
        denominazione := cfg.businessName
        regimeFiscale := "RF01"
        codiceFiscale := none }
    identificativoPEM := cfg.pemId
    datiGenerali :=
      { tipoDocumento := "TD01"
        numero := documentNumber
        dataOra := dataOra }
    dettaglioLinee := dettaglioLinee
    datiRiepilogo := datiRiepilogo
    importoTotale := round2 totalAmount }

/-! ## Journal Manager (`journal.manager.ts`) -/

/-- Entry type: Apertura, Documento, Cambio Giornata, Chiusura. -/
inductive EntryType where
  | AA
  | DC
  | CG
  | CC
deriving DecidableEq

/-- The `data` payload of a journal entry (tagged union over the shapes the
manager actually creates). -/
inductive Payload where
  | apertura (dataOraApertura : String)
  | documento (doc : DocumentoCommerciale)
  | chiusura (dataOraChiusura : String) (totaleNumeroDCProdottiJournal : Nat)
      (importoTotaleGiornaliero : ℚ)
deriving DecidableEq

/-- Hash values: `genesis` is `'0'.repeat 64`; `digest` is the SHA-256 of
`JSON.stringify {type, timestamp, data, previousHash}`, modelled as a free
constructor on those four inputs (collision-resistance idealisation). -/
inductive HashV where
  | genesis
  | digest (type : EntryType) (timestamp : String) (data : Payload)
      (previousHash : HashV)
deriving DecidableEq

/-- A journal entry. -/
structure JournalEntry where
  type : EntryType
  timestamp : String
  data : Payload
  previousHash : HashV
  hash : HashV
deriving DecidableEq

/-- `calculateHash`: hash of everything but the entry's own `hash` field. -/
def calculateHash (type : EntryType) (timestamp : String) (data : Payload)
    (previousHash : HashV) : HashV :=
  .digest type timestamp data previousHash

/-- Journal manager state (`entries`, `currentHash`, `isOpen`). -/
structure JMState where
  entries : List JournalEntry
  currentHash : HashV
  isOpen : Bool
deriving DecidableEq

/-- A freshly constructed `JournalManager`. -/
def JMState.init : JMState :=
  { entries := [], currentHash := .genesis, isOpen := false }

/-- `openCash()`.  `ts` is the entry timestamp, `tsData` the (separate)
`dataOraApertura` timestamp. -/
def openCash (ts tsData : String) (s : JMState) :
    Except String (HashV × JMState) :=
  if s.isOpen then .error "Cash register already open"
  else
    let h := calculateHash .AA ts (.apertura tsData) s.currentHash
    let entry : JournalEntry :=
      { type := .AA, timestamp := ts, data := .apertura tsData
        previousHash := s.currentHash, hash := h }
    .ok (h, { entries := s.entries ++ [entry], currentHash := h, isOpen := true })

/-- `addDocument(document)`. -/
def addDocument (ts : String) (doc : DocumentoCommerciale) (s : JMState) :
    Except String (HashV × JMState) :=
  if !s.isOpen then .error "Cash register not open"
  else
    let h := calculateHash .DC ts (.documento doc) s.currentHash
    let entry : JournalEntry :=
      { type := .DC, timestamp := ts, data := .documento doc
        previousHash := s.currentHash, hash := h }
    .ok (h, { entries := s.entries ++ [entry], currentHash := h, isOpen := true })

/-- `data.importoTotale || 0` as read by `closeCash` from a DC entry. -/
def docAmount (p : Payload) : ℚ :=
  match p with
  | .documento d => d.importoTotale
  | _ => 0

/-- Result of `closeCash()`. -/
structure CloseResult where
  hash : HashV
  totalDocuments : Nat
  totalAmount : ℚ
deriving DecidableEq

/-- `closeCash()`: aggregates over ALL entries of type DC currently in
`entries` (note: the source filters the whole `entries` array, not just the
entries since the matching OPEN). -/
def closeCash (ts tsData : String) (s : JMState) :
    Except String (CloseResult × JMState) :=
  if !s.isOpen then .error "Cash register not open"
  else
    let documents := s.entries.filter (fun e => e.type = .DC)
    let totalAmount := documents.foldl (fun sum e => sum + docAmount e.data) 0
    let data : Payload := .chiusura tsData documents.length totalAmount
    let h := calculateHash .CC ts data s.currentHash
    let entry : JournalEntry :=
      { type := .CC, timestamp := ts, data := data
        previousHash := s.currentHash, hash := h }
    .ok ({ hash := h, totalDocuments := documents.length,
           totalAmount := totalAmount },
         { entries := s.entries ++ [entry], currentHash := h, isOpen := false })

/-- The loop body of `verify()`: walk from `prev`, check each entry's
`previousHash` link and recomputed hash, threading the stored hash. -/
def verifyFrom (prev : HashV) : List JournalEntry → Bool
  | [] => true
  | e :: rest =>
      if e.previousHash ≠ prev then false
      else if calculateHash e.type e.timestamp e.data e.previousHash ≠ e.hash
        then false
      else verifyFrom e.hash rest

/-- `verify()`: walk entries from the genesis constant. -/
def JMState.verify (s : JMState) : Bool :=
  verifyFrom .genesis s.entries

/-- A well-formed session on a journal state: `openCash`, then
`addDocument` for each `(timestamp, document)` pair, then `closeCash`. -/
def runSession (tsO tsOd : String) (docs : List (String × DocumentoCommerciale))
    (tsC tsCd : String) (s : JMState) :
    Except String (CloseResult × JMState) := do
  let (_, s1) ← openCash tsO tsOd s
  let s2 ← docs.foldlM (fun st td => (addDocument td.1 td.2 st).map (·.2)) s1
  closeCash tsC tsCd s2

/-! ## PEM Manager (`pem.manager.ts`)

Network effects are passed in as explicit outcomes: `sendOk` is whether
`pelClient.sendDocument` reports success, `sendJournalOk` whether
`pelClient.sendJournal` does.  The model corresponds to a manager whose
`pelClient` is configured (the claims are about the synchronising path);
local blob storage is an out-of-scope collaborator and is not modelled. -/

/-- PEM manager state. -/
structure PEMState where
  isSessionOpen : Bool
  documentCounter : Nat
  unsyncedDocuments : List DocumentoCommerciale
  journal : JMState
deriving DecidableEq

/-- A freshly constructed `PEMManager`. -/
def PEMState.init : PEMState :=
  { isSessionOpen := false, documentCounter := 0, unsyncedDocuments := []
    journal := JMState.init }

/-- `counter.toString().padStart(6, '0')`. -/
def padStart6 (n : Nat) : String :=
  let s := toString n
  String.mk (List.replicate (6 - s.length) '0') ++ s

/-- `openSession()`: the session-seed request is best-effort and does not
change state, so it is not modelled. -/
def openSession (ts tsData : String) (s : PEMState) :
    Except String PEMState :=
  if s.isSessionOpen then .error "Session already open"
  else do
    let (_, j) ← openCash ts tsData s.journal
    .ok { isSessionOpen := true, documentCounter := 0, unsyncedDocuments := []
          journal := j }

/-- `emitReceipt(lines)`: build the document, append it to the journal, and
attempt the real-time push; on failure the document joins the unsynced
backlog. -/
def emitReceipt (cfg : BuilderConfig) (ts : String) (lines : List DocumentLine)
    (sendOk : Bool) (s : PEMState) :
    Except String ((DocumentoCommerciale × HashV × Bool) × PEMState) :=
  if !s.isSessionOpen then .error "Session not open"
  else do
    let counter := s.documentCounter + 1
    let documentNumber := padStart6 counter
    let document := build cfg lines documentNumber ts
    let (h, j) ← addDocument ts document s.journal
    let unsynced := if sendOk then s.unsyncedDocuments
                    else s.unsyncedDocuments ++ [document]
    .ok ((document, h, sendOk),
         { isSessionOpen := true, documentCounter := counter
           unsyncedDocuments := unsynced, journal := j })

/-- Observable effects of `closeSession()`, in program order. -/
inductive CloseEvent where
  | seal
  | retry (doc : DocumentoCommerciale)
  | pushJournal
deriving DecidableEq

/-- The summary `closeSession()` returns. -/
structure CloseSummary where
  totalDocuments : Nat
  totalAmount : ℚ
  journalSynced : Bool
  unsyncedDocuments : Nat
deriving DecidableEq

/-- `closeSession()`: requires an open session; seals the journal with
`closeCash` FIRST, then retries each backlog document exactly once (the
retry outcome is ignored: the backlog list is not pruned), then pushes the
sealed journal.  Push failures are caught and only reflected in the
summary. -/
def closeSession (sendJournalOk : Bool) (tsC tsCd : String) (s : PEMState) :
    Except String (CloseSummary × PEMState × List CloseEvent) :=
  if !s.isSessionOpen then .error "Session not open"
  else do
    let (r, j) ← closeCash tsC tsCd s.journal
    let events := CloseEvent.seal ::
      (s.unsyncedDocuments.map CloseEvent.retry ++ [CloseEvent.pushJournal])
    let summary : CloseSummary :=
      { totalDocuments := r.totalDocuments
        totalAmount := r.totalAmount
        journalSynced := sendJournalOk
        unsyncedDocuments := s.unsyncedDocuments.length }
    .ok (summary,
         { s with isSessionOpen := false, journal := j },
         events)

/-- Does a `CloseEvent` record a backlog retry? -/
def CloseEvent.isRetry : CloseEvent → Bool
  | .retry _ => true
  | _ => false

/-- The ordering the spec sentence asserts: every retry event precedes the
seal event (no retry occurs after the seal). -/
def retriesPrecedeSeal (tr : List CloseEvent) : Bool :=
  ((tr.drop (tr.findIdx (· = .seal) + 1)).filter CloseEvent.isRetry).isEmpty

/-! ## PEL ingestion model (`pel.server.ts`, database per `IDatabase`)

JS truthiness on required string fields is modelled as "≠ empty string"
(both `undefined` and `""` are falsy); fields the integrity check probes
with `!x` / `=== undefined` are modelled as `Option`s. -/

/-- A received journal entry (`VoceGiornale`), fields as probed by
`verifyJournalIntegrity`. -/
structure VoceGiornale where
  numeroProgressivo : Option Nat
  dataOra : Option String
  tipo : Option String
  importo : Option ℚ
deriving DecidableEq

/-- A received journal (`Journal` from `@openade/common`), fields as used
by `validateJournal`, `verifyJournalIntegrity`, persistence and the audit
XML export. -/
structure JournalR where
  versione : String
  identificativoPEM : String
  dataRiferimento : String
  dataOraGenerazione : String
  voci : Option (List VoceGiornale)
  importoTotaleGiornata : ℚ
  numeroVoci : Option Nat
  contribuente : Contribuente
deriving DecidableEq

/-- JS truthiness of an optional string (`!x` fails for
undefined and for `""`). -/
def truthy (o : Option String) : Bool :=
  match o with
  | none => false
  | some s => s ≠ ""

/-- `validateJournal`: required-field presence (the `voci` field must be
present and an array, rendered by the `Option (List _)` type). -/
def validateJournal (j : JournalR) : Bool :=
  j.versione ≠ "" && j.identificativoPEM ≠ "" && j.dataRiferimento ≠ "" &&
  j.dataOraGenerazione ≠ "" && j.voci.isSome

/-- The indexed per-entry checks of `verifyJournalIntegrity`:
`numeroProgressivo === i + 1`, truthy `dataOra` and `tipo`, and
`importo !== undefined`. -/
def vociChecksOk : Nat → List VoceGiornale → Bool
  | _, [] => true
  | i, v :: rest =>
      v.numeroProgressivo = some (i + 1) && truthy v.dataOra &&
      truthy v.tipo && v.importo.isSome && vociChecksOk (i + 1) rest

/-- `Math.abs`. -/
def qabs (x : ℚ) : ℚ := if x < 0 then -x else x

/-- `verifyJournalIntegrity`: false on an empty/absent entry list, on any
per-entry check failure, or when the summed entry amounts differ from the
declared `importoTotaleGiornata` by more than 0.01. -/
def verifyJournalIntegrity (j : JournalR) : Bool :=
  match j.voci with
  | none => false
  | some voci =>
      if voci.isEmpty then false
      else if !vociChecksOk 0 voci then false
      else
        let calculatedTotal :=
          voci.foldl (fun sum entry => sum + entry.importo.getD 0) 0
        if qabs (calculatedTotal - j.importoTotaleGiornata) > 1 / 100
          then false else true

/-- An integrity anomaly record as built by the journal route. -/
structure Anomaly where
  type : String
  pemId : String
  details : String
  timestamp : String
deriving DecidableEq

/-- An aggregated VAT group of the daily receipts. -/
structure AggGroup where
  imponibile : ℚ
  imposta : ℚ
  aliquotaIVA : Option ℚ
  natura : Option String
deriving DecidableEq

/-- The `CorrispettiviGiornalieri` daily report. -/
structure CorrGiornalieri where
  versione : String
  partitaIVA : String
  codiceFiscale : Option String
  identificativoPEM : String
  dataRiferimento : String
  dataOraTrasmissione : String
  numeroDocumenti : Nat
  importoTotale : ℚ
  riepilogoIVA : List AggGroup
deriving DecidableEq

/-- PEL-side persistent state (database tables the claims observe; the blob
store duplicates are not modelled separately). -/
structure PELState where
  anomalies : List Anomaly
  journals : List JournalR
  documents : List DocumentoCommerciale
  dailyReceipts : List CorrGiornalieri
deriving DecidableEq

/-- Byte-wise lexicographic string order, as SQLite compares TEXT columns
(ASCII ISO dates compare correctly under it). -/
def charListLe : List Char → List Char → Bool
  | [], _ => true
  | _ :: _, [] => false
  | a :: as, b :: bs =>
      if a.toNat < b.toNat then true
      else if b.toNat < a.toNat then false
      else charListLe as bs

/-- `a <= b` on strings, lexicographically. -/
def strLe (a b : String) : Bool := charListLe a.toList b.toList

/-- `IDatabase.listDocuments` filtered by emission point and date range, as
the aggregation engine requests it (`dateFrom = dateTo = dataRiferimento`;
a document's date is the first 10 characters of its `dataOra`). -/
def listDocuments (st : PELState) (emissionPointId dateFrom dateTo : String) :
    List DocumentoCommerciale :=
  st.documents.filter fun d =>
    d.identificativoPEM = emissionPointId &&
    strLe dateFrom (d.datiGenerali.dataOra.take 10) &&
    strLe (d.datiGenerali.dataOra.take 10) dateTo

/-- The aggregation key of `generateDailyReceipts`:
`VAT_${aliquotaIVA}` when the VAT rate is defined, else `NAT_${natura}`. -/
inductive AggKey where
  | vat (rate : ℚ)
  | nat (natura : Option String)
deriving DecidableEq

/-- Key of one `datiRiepilogo` group. -/
def aggKey (r : Riepilogo) : AggKey :=
  match r.aliquotaIVA with
  | some a => .vat a
  | none => .nat r.natura

/-- Fold one received VAT summary group into the insertion-ordered map
(existing keys accumulate `imponibile`/`imposta` in place). -/
def addAgg (m : List (AggKey × AggGroup)) (r : Riepilogo) :
    List (AggKey × AggGroup) :=
  match m with
  | [] => [(aggKey r,
      { imponibile := r.imponibile, imposta := r.imposta
        aliquotaIVA := r.aliquotaIVA, natura := r.natura })]
  | (k, g) :: rest =>
      if k = aggKey r then
        (k, { g with imponibile := g.imponibile + r.imponibile
                     imposta := g.imposta + r.imposta }) :: rest
      else (k, g) :: addAgg rest r

/-- Natural key of a daily report: `(vat_number, pem_id, reference_date)`. -/
def dailyKey (d : CorrGiornalieri) : String × String × String :=
  (d.partitaIVA, d.identificativoPEM, d.dataRiferimento)

/-- `SQLDatabase.saveDailyReceipts`: `INSERT OR REPLACE` on the primary key
`(vat_number, pem_id, reference_date)`. -/
def saveDailyReceipts (d : CorrGiornalieri) (tbl : List CorrGiornalieri) :
    List CorrGiornalieri :=
  (tbl.filter fun e => dailyKey e ≠ dailyKey d) ++ [d]

/-- The `CorrispettiviGiornalieri` record `generateDailyReceipts` builds
from a journal and its (nonempty, head `d0`) document list. -/
def buildCorrispettivi (j : JournalR) (now : String)
    (d0 : DocumentoCommerciale) (documents : List DocumentoCommerciale) :
    CorrGiornalieri :=
  let totalAmount := documents.foldl (fun s d => s + d.importoTotale) 0
  let vatMap := documents.foldl
    (fun m d => d.datiRiepilogo.foldl addAgg m) []
  { versione := "1.0"
    partitaIVA := d0.contribuente.partitaIVA
    codiceFiscale := d0.contribuente.codiceFiscale
    identificativoPEM := j.identificativoPEM
    dataRiferimento := j.dataRiferimento
    dataOraTrasmissione := now
    numeroDocumenti := documents.length
    importoTotale := totalAmount
    riepilogoIVA := vatMap.map (·.2) }

/-- `generateDailyReceipts(journal)`: fetch the journal's documents, skip
when none, else aggregate VAT groups across all documents, build the
`CorrispettiviGiornalieri` and upsert it.  `now` stands for the
`dataOraTrasmissione` timestamp. -/
def generateDailyReceipts (j : JournalR) (now : String) (st : PELState) :
    PELState :=
  let documents :=
    listDocuments st j.identificativoPEM j.dataRiferimento j.dataRiferimento
  match documents with
  | [] => st
  | d0 :: rest =>
      { st with dailyReceipts :=
          (saveDailyReceipts (buildCorrispettivi j now d0 (d0 :: rest))
            st.dailyReceipts) }

/-- HTTP response of the journal route (status plus whether a message id
was issued). -/
structure JournalResponse where
  status : Nat
deriving DecidableEq

/-- `POST /api/journal`: 400 when required fields are missing; otherwise an
integrity failure is recorded as an anomaly, the journal is persisted
either way, daily-receipts generation is triggered, and the route responds
200.  `now` stands for the timestamps taken during handling. -/
def postJournal (now : String) (j : JournalR) (st : PELState) :
    JournalResponse × PELState :=
  if !validateJournal j then ({ status := 400 }, st)
  else
    let st1 :=
      if !verifyJournalIntegrity j then
        { st with anomalies := st.anomalies ++
            [{ type := "JOURNAL_INTEGRITY_ERROR"
               pemId := j.identificativoPEM
               details := "Journal for " ++ j.dataRiferimento ++
                 " failed integrity check"
               timestamp := now }] }
      else st
    let st2 := { st1 with journals := st1.journals ++ [j] }
    let st3 := generateDailyReceipts j now st2
    ({ status := 200 }, st3)

/-! ## Audit Server (`audit.server.ts`) -/

/-- Audit request status. -/
inductive AuditStatus where
  | pronta
  | inElaborazione
  | nonDisponibile
deriving DecidableEq

/-- Kind of an audit job. -/
inductive AuditKind where
  | journal
  | dc
deriving DecidableEq

/-- One artifact entry `{nome, size}`. -/
structure AuditFile where
  nome : String
  size : String
deriving DecidableEq

/-- An audit job. -/
structure AuditJob where
  id : String
  kind : AuditKind
  status : AuditStatus
  files : List AuditFile
deriving DecidableEq

/-- The job as created by `POST /audit/journal` / `POST /audit/dc` before
the async worker runs. -/
def mkAuditJob (id : String) (kind : AuditKind) : AuditJob :=
  { id := id, kind := kind, status := .inElaborazione, files := [] }

/-- Characters stripped by `.replace(/[:-]/g, '')`. -/
def stripDateSeparators (s : String) : String :=
  String.mk (s.toList.filter fun c => c ≠ '-' && c ≠ ':')

/-- `generateJournalXML`: the flat XML export of a received journal
(`x || 0` maps an absent or zero `numeroVoci` to the entry-list length
fallback, and renders `importoTotaleGiornata` with 0 for falsy). -/
def generateJournalXML (j : JournalR) : String :=
  let fallback := match j.voci with
    | some voci => voci.length
    | none => 0
  let numeroVoci := match j.numeroVoci with
    | some n => if n = 0 then fallback else n
    | none => fallback
  "<?xml version=\x221.0\x22 encoding=\x22UTF-8\x22?>\n" ++
  "<Journal versione=\x22" ++ j.versione ++ "\x22>\n" ++
  "  <IdentificativoPEM>" ++ j.identificativoPEM ++ "</IdentificativoPEM>\n" ++
  "  <DataRiferimento>" ++ j.dataRiferimento ++ "</DataRiferimento>\n" ++
  "  <DataOraGenerazione>" ++ j.dataOraGenerazione ++
    "</DataOraGenerazione>\n" ++
  "  <NumeroVoci>" ++ toString numeroVoci ++ "</NumeroVoci>\n" ++
  "  <ImportoTotaleGiornata>" ++ toString j.importoTotaleGiornata ++
    "</ImportoTotaleGiornata>\n" ++
  "</Journal>"

/-- `generateDocumentXML`: the flat XML export of a commercial document. -/
def generateDocumentXML (d : DocumentoCommerciale) : String :=
  "<?xml version=\x221.0\x22 encoding=\x22UTF-8\x22?>\n" ++
  "<DocumentoCommerciale>\n" ++
  "  <IdentificativoPEM>" ++ d.identificativoPEM ++ "</IdentificativoPEM>\n" ++
  "  <DatiGenerali>\n" ++
  "    <Numero>" ++ d.datiGenerali.numero ++ "</Numero>\n" ++
  "    <DataOra>" ++ d.datiGenerali.dataOra ++ "</DataOra>\n" ++
  "    <TipoDocumento>" ++ d.datiGenerali.tipoDocumento ++
    "</TipoDocumento>\n" ++
  "  </DatiGenerali>\n" ++
  "  <ImportoTotale>" ++ toString d.importoTotale ++ "</ImportoTotale>\n" ++
  "</DocumentoCommerciale>"

/-- The artifact recorded for one journal:
`J_${identificativoPEM}_${dateStr}.xml` with the serialized size. -/
def journalAuditFile (j : JournalR) : AuditFile :=
  { nome := "J_" ++ j.identificativoPEM ++ "_" ++
      stripDateSeparators j.dataRiferimento ++ ".xml"
    size := toString (generateJournalXML j).length }

/-- The artifact recorded for one document:
`DC_${numero}_${identificativoPEM}_${dateStr}.xml`. -/
def documentAuditFile (d : DocumentoCommerciale) : AuditFile :=
  { nome := "DC_" ++ d.datiGenerali.numero ++ "_" ++ d.identificativoPEM ++
      "_" ++ stripDateSeparators (d.datiGenerali.dataOra.take 10) ++ ".xml"
    size := toString (generateDocumentXML d).length }

/-- `processJournalAudit`: with zero matching journals the job terminates
NON_DISPONIBILE; otherwise every journal is serialized and stored, and the
job flips to PRONTA with the artifact list (files assigned together with
the status, in the same synchronous block). -/
def processJournalAudit (queried : List JournalR) (job : AuditJob) :
    AuditJob :=
  match queried with
  | [] => { job with status := .nonDisponibile }
  | _ =>
      let files := queried.map journalAuditFile
      { job with files := files, status := .pronta }

/-- The artifact list `processDocumentAudit` accumulates: resolve documents
by content hash (hashes that resolve to nothing are skipped), or, when no
hash list is given, by device/date criteria. -/
def docAuditFiles (resolveHash : String → Option DocumentoCommerciale)
    (criteriaDocs : List DocumentoCommerciale)
    (hashes : Option (List String))
    (emissionPointId dateFrom dateTo : Option String) : List AuditFile :=
  match hashes with
  | some hs =>
      hs.foldl (fun fs h =>
        match resolveHash h with
        | none => fs
        | some d => fs ++ [documentAuditFile d]) []
  | none =>
      if emissionPointId.isSome || (dateFrom.isSome && dateTo.isSome) then
        criteriaDocs.map documentAuditFile
      else []

/-- `processDocumentAudit`: zero resolved artifacts terminate the job
NON_DISPONIBILE, otherwise it flips to PRONTA with the artifact list. -/
def processDocumentAudit (resolveHash : String → Option DocumentoCommerciale)
    (criteriaDocs : List DocumentoCommerciale)
    (hashes : Option (List String))
    (emissionPointId dateFrom dateTo : Option String)
    (job : AuditJob) : AuditJob :=
  match docAuditFiles resolveHash criteriaDocs hashes emissionPointId
      dateFrom dateTo with
  | [] => { job with status := .nonDisponibile }
  | f :: fs => { job with files := f :: fs, status := .pronta }

/-! ## Chain bookkeeping used by the verification lemmas -/

/-- The hash at the end of a chain segment (the stored hash of the last
entry, or `prev` for the empty segment) — this is what `verify()` threads
as `previousHash`. -/
def chainEnd (prev : HashV) : List JournalEntry → HashV
  | [] => prev
  | e :: rest => chainEnd e.hash rest

/-- Invariant maintained by the journal manager: the entries verify from
genesis and `currentHash` is the hash at the end of the chain. -/
def JMInv (s : JMState) : Prop :=
  s.verify = true ∧ chainEnd .genesis s.entries = s.currentHash

/-! ## Concrete example data (used by witnesses and counterexamples) -/

/-- Example builder configuration. -/
def exCfg : BuilderConfig :=
  { vatNumber := "IT123", businessName := "Shop", pemId := "PEM1" }

/-- Example timestamp. -/
def exTs : String := "2025-01-15T10:00:00.000Z"

/-- Receipt A of the spec scenario: 2 × 2.50 € at 10 % VAT. -/
def exDocA : DocumentoCommerciale :=
  build exCfg [{ description := "item", quantity := 2, unitPrice := 5 / 2
                 vatRate := 10 }] "000001" exTs

/-- Receipt B of the spec scenario: 1 × 5.00 € at 10 % VAT. -/
def exDocB : DocumentoCommerciale :=
  build exCfg [{ description := "item", quantity := 1, unitPrice := 5
                 vatRate := 10 }] "000002" exTs

/-- A 3.00 € receipt, used by the journal-reuse counterexample. -/
def exDocC : DocumentoCommerciale :=
  build exCfg [{ description := "item", quantity := 1, unitPrice := 3
                 vatRate := 10 }] "000001" exTs

/-- One-document session used by the chain-integrity witness. -/
def w1Run : Except String (CloseResult × JMState) :=
  runSession "t1" "t1" [("t2", exDocA)] "t3" "t3" JMState.init

/-- The journal state that session produces. -/
def w1State : JMState :=
  match w1Run with
  | .ok (_, s) => s
  | .error _ => JMState.init

/-- The close result that session produces. -/
def w1Result : CloseResult :=
  match w1Run with
  | .ok (r, _) => r
  | .error _ => { hash := .genesis, totalDocuments := 0, totalAmount := 0 }

/-- The OPEN entry of that session. -/
def w1Open : JournalEntry :=
  { type := .AA, timestamp := "t1", data := .apertura "t1"
    previousHash := .genesis
    hash := calculateHash .AA "t1" (.apertura "t1") .genesis }

/-- The DOCUMENT entry of that session. -/
def w1Doc : JournalEntry :=
  { type := .DC, timestamp := "t2", data := .documento exDocA
    previousHash := w1Open.hash
    hash := calculateHash .DC "t2" (.documento exDocA) w1Open.hash }

/-- The CLOSE entry of that session. -/
def w1Close : JournalEntry :=
  { type := .CC, timestamp := "t3", data := .chiusura "t3" 1 5
    previousHash := w1Doc.hash
    hash := calculateHash .CC "t3" (.chiusura "t3" 1 5) w1Doc.hash }

/-- The DOCUMENT entry with its timestamp mutated after the fact. -/
def w1Mut : JournalEntry :=
  { w1Doc with timestamp := "tampered" }

/-- Natural-key-independent totals of a daily report (everything except
the transmission timestamp and the key fields). -/
def dailyTotals (d : CorrGiornalieri) : Nat × ℚ × List AggGroup :=
  (d.numeroDocumenti, d.importoTotale, d.riepilogoIVA)

/-- The natural key the aggregation of journal `j` over state `st` uses:
the first matching document's VAT number with the journal's device id and
reference date. -/
def aggKeyOf (st : PELState) (j : JournalR) : String × String × String :=
  match listDocuments st j.identificativoPEM j.dataRiferimento
      j.dataRiferimento with
  | [] => ("", j.identificativoPEM, j.dataRiferimento)
  | d0 :: _ => (d0.contribuente.partitaIVA, j.identificativoPEM,
      j.dataRiferimento)

/-- Example taxpayer. -/
def exContrib : Contribuente :=
  { partitaIVA := "IT123", denominazione := "Shop", regimeFiscale := "RF01"
    codiceFiscale := none }

/-- A PEL state holding the two scenario receipts and nothing else. -/
def exPELState : PELState :=
  { anomalies := [], journals := [], documents := [exDocA, exDocB]
    dailyReceipts := [] }

/-- A well-formed journal for the scenario device and date. -/
def c2Journal : JournalR :=
  { versione := "1.0", identificativoPEM := "PEM1"
    dataRiferimento := "2025-01-15", dataOraGenerazione := exTs
    voci := some [{ numeroProgressivo := some 1, dataOra := some exTs
                    tipo := some "DC", importo := some 10 }]
    importoTotaleGiornata := 10, numeroVoci := some 1
    contribuente := exContrib }

/-- A journal that passes required-field validation but fails the integrity
check: its single entry carries `numeroProgressivo = 2` instead of 1. -/
def c4BadJournal : JournalR :=
  { versione := "1.0", identificativoPEM := "PEM1"
    dataRiferimento := "2025-01-15", dataOraGenerazione := exTs
    voci := some [{ numeroProgressivo := some 2, dataOra := some exTs
                    tipo := some "DC", importo := some 10 }]
    importoTotaleGiornata := 10, numeroVoci := some 1
    contribuente := exContrib }

/-- End-to-end PEM scenario run: open, emit A (2 x 2.50 at 10 %), emit B
(1 x 5.00 at 10 %), close (every push succeeding). -/
def c7Run : Except String
    ((DocumentoCommerciale × DocumentoCommerciale) × CloseSummary ×
      PEMState) := do
  let s1 ← openSession "t1" "t1" PEMState.init
  let (ra, s2) ← emitReceipt exCfg exTs
    [{ description := "item", quantity := 2, unitPrice := 5 / 2
       vatRate := 10 }] true s1
  let (rb, s3) ← emitReceipt exCfg exTs
    [{ description := "item", quantity := 1, unitPrice := 5
       vatRate := 10 }] true s2
  let (summary, s4, _) ← closeSession true "t9" "t9" s3
  .ok ((ra.1, rb.1), summary, s4)

/-- Receipt A as emitted by the scenario run. -/
def c7DocA : DocumentoCommerciale :=
  match c7Run with
  | .ok ((a, _), _, _) => a
  | .error _ => exDocA

/-- Receipt B as emitted by the scenario run. -/
def c7DocB : DocumentoCommerciale :=
  match c7Run with
  | .ok ((_, b), _, _) => b
  | .error _ => exDocB

/-- The close summary of the scenario run. -/
def c7Summary : CloseSummary :=
  match c7Run with
  | .ok (_, summary, _) => summary
  | .error _ =>
      { totalDocuments := 0, totalAmount := 0, journalSynced := false
        unsyncedDocuments := 0 }

/-- The PEM state after the scenario close. -/
def c7Pem : PEMState :=
  match c7Run with
  | .ok (_, _, s) => s
  | .error _ => PEMState.init

/-- PEL state holding the two scenario receipts. -/
def c7St : PELState :=
  { anomalies := [], journals := [], documents := [c7DocA, c7DocB]
    dailyReceipts := [] }

/-- The daily report the PEL aggregation produces for the scenario. -/
def c7Daily : CorrGiornalieri :=
  match (generateDailyReceipts c2Journal "now" c7St).dailyReceipts with
  | d :: _ => d
  | [] =>
      { versione := "", partitaIVA := "", codiceFiscale := none
        identificativoPEM := "", dataRiferimento := ""
        dataOraTrasmissione := "", numeroDocumenti := 0, importoTotale := 0
        riepilogoIVA := [] }

/-- PEM state with one unsynced document in the backlog (its real-time
push failed). -/
def c8BacklogRun : Except String PEMState := do
  let s1 ← openSession "t1" "t1" PEMState.init
  let (_, s2) ← emitReceipt exCfg "t2"
    [{ description := "item", quantity := 1, unitPrice := 5
       vatRate := 10 }] false s1
  .ok s2

/-- The backlog state. -/
def c8State : PEMState :=
  match c8BacklogRun with
  | .ok s => s
  | .error _ => PEMState.init

/-- The event trace `closeSession` produces from the backlog state. -/
def c8Events : List CloseEvent :=
  match closeSession true "t9" "t9" c8State with
  | .ok (_, _, events) => events
  | .error _ => []

/-- The close result of sealing the backlog state's journal. -/
def c8Wr : CloseResult :=
  match closeCash "t9" "t9" c8State.journal with
  | .ok (r, _) => r
  | .error _ => { hash := .genesis, totalDocuments := 0, totalAmount := 0 }

/-- The sealed journal state of the backlog state. -/
def c8Wj : JMState :=
  match closeCash "t9" "t9" c8State.journal with
  | .ok (_, s) => s
  | .error _ => JMState.init

/-- The unrounded `taxable + tax` mass held by a VAT-group list. -/
def sumPairs (gs : List (ℚ × ℚ × ℚ)) : ℚ :=
  (gs.map (fun g => g.2.1 + g.2.2)).sum

/-- Two-line input whose per-group rounding errors both point the same way:
1 × 0.06061 € at 10 % and 1 × 0.03012 € at 20 %. -/
def c6Lines : List DocumentLine :=
  [{ description := "a", quantity := 1, unitPrice := 6061 / 100000
     vatRate := 10 },
   { description := "b", quantity := 1, unitPrice := 3012 / 100000
     vatRate := 20 }]

/-- Journal state after a first complete session (one 5.00 € document). -/
def c3State1 : JMState :=
  match runSession "t1" "t1" [("t2", exDocA)] "t3" "t3" JMState.init with
  | .ok (_, s) => s
  | .error _ => JMState.init

/-- The same journal instance reopened for a second session. -/
def c3OpenState : JMState :=
  match openCash "t4" "t4" c3State1 with
  | .ok (_, s) => s
  | .error _ => JMState.init

/-- Second session: one 3.00 € document appended, then closed. -/
def c3Run2 : Except String (CloseResult × JMState) := do
  let (_, s) ← addDocument "t5" exDocC c3OpenState
  closeCash "t6" "t6" s

/-- The close result of the second session. -/
def c3Result2 : CloseResult :=
  match c3Run2 with
  | .ok (r, _) => r
  | .error _ => { hash := .genesis, totalDocuments := 0, totalAmount := 0 }

/-- The journal state just before the second session's close. -/
def c3PreClose : JMState :=
  match addDocument "t5" exDocC c3OpenState with
  | .ok (_, s) => s
  | .error _ => JMState.init

/-- The close result obtained by closing `c3PreClose`. -/
def c3Wr : CloseResult :=
  match closeCash "t6" "t6" c3PreClose with
  | .ok (r, _) => r
  | .error _ => { hash := .genesis, totalDocuments := 0, totalAmount := 0 }

/-- The journal state after closing `c3PreClose`. -/
def c3Ws : JMState :=
  match closeCash "t6" "t6" c3PreClose with
  | .ok (_, s) => s
  | .error _ => JMState.init

/-! ## Hash-chain lemmas -/

theorem verifyFrom_cons (prev : HashV) (a : JournalEntry)
    (l : List JournalEntry) :
    verifyFrom prev (a :: l) =
      if a.previousHash ≠ prev then false
      else if calculateHash a.type a.timestamp a.data a.previousHash ≠ a.hash
        then false
      else verifyFrom a.hash l := rfl

theorem verifyFrom_snoc (l : List JournalEntry) :
    ∀ (prev : HashV) (e : JournalEntry),
    verifyFrom prev l = true →
    e.previousHash = chainEnd prev l →
    calculateHash e.type e.timestamp e.data e.previousHash = e.hash →
    verifyFrom prev (l ++ [e]) = true := by
  induction l with
  | nil =>
      intro prev e _ hprev hhash
      simp only [chainEnd] at hprev
      rw [hprev] at hhash
      simp [verifyFrom, hprev, hhash]
  | cons a rest ih =>
      intro prev e hok hprev hhash
      rw [verifyFrom_cons] at hok
      rw [List.cons_append, verifyFrom_cons]
      by_cases h1 : a.previousHash ≠ prev
      · rw [if_pos h1] at hok; exact absurd hok (by simp)
      · rw [if_neg h1] at hok ⊢
        by_cases h2 : calculateHash a.type a.timestamp a.data a.previousHash ≠
            a.hash
        · rw [if_pos h2] at hok; exact absurd hok (by simp)
        · rw [if_neg h2] at hok ⊢
          exact ih a.hash e hok hprev hhash

theorem chainEnd_snoc (l : List JournalEntry) :
    ∀ (prev : HashV) (e : JournalEntry), chainEnd prev (l ++ [e]) = e.hash := by
  induction l with
  | nil => intro prev e; rfl
  | cons a rest ih => intro prev e; simpa [chainEnd] using ih a.hash e

theorem appendEntry_inv (s : JMState) (e : JournalEntry) (b : Bool)
    (hinv : JMInv s) (hprev : e.previousHash = s.currentHash)
    (hhash : calculateHash e.type e.timestamp e.data e.previousHash = e.hash) :
    JMInv { entries := s.entries ++ [e], currentHash := e.hash, isOpen := b } := by
  obtain ⟨hver, hend⟩ := hinv
  constructor
  · exact verifyFrom_snoc s.entries .genesis e hver (by rw [hend]; exact hprev)
      hhash
  · exact chainEnd_snoc s.entries .genesis e

theorem openCash_inv (ts tsd : String) (s : JMState) (h : HashV) (s' : JMState)
    (hinv : JMInv s) (hok : openCash ts tsd s = .ok (h, s')) : JMInv s' := by
  by_cases hs : s.isOpen
  · simp [openCash, hs] at hok
  · simp only [openCash, if_neg hs, Except.ok.injEq, Prod.mk.injEq] at hok
    rw [← hok.2]
    exact appendEntry_inv s _ true hinv rfl rfl

theorem addDocument_inv (ts : String) (d : DocumentoCommerciale) (s : JMState)
    (h : HashV) (s' : JMState)
    (hinv : JMInv s) (hok : addDocument ts d s = .ok (h, s')) : JMInv s' := by
  by_cases hs : s.isOpen
  · simp only [addDocument, hs, Bool.not_true, Bool.false_eq_true, if_false,
      Except.ok.injEq, Prod.mk.injEq] at hok
    rw [← hok.2]
    exact appendEntry_inv s _ true hinv rfl rfl
  · simp [addDocument, hs] at hok

theorem closeCash_inv (ts tsd : String) (s : JMState) (r : CloseResult)
    (s' : JMState)
    (hinv : JMInv s) (hok : closeCash ts tsd s = .ok (r, s')) : JMInv s' := by
  by_cases hs : s.isOpen
  · simp only [closeCash, hs, Bool.not_true, Bool.false_eq_true, if_false,
      Except.ok.injEq, Prod.mk.injEq] at hok
    rw [← hok.2]
    exact appendEntry_inv s _ false hinv rfl rfl
  · simp [closeCash, hs] at hok

theorem addDocs_inv (docs : List (String × DocumentoCommerciale)) :
    ∀ (s s' : JMState), JMInv s →
    docs.foldlM (fun st td => (addDocument td.1 td.2 st).map (·.2)) s =
      .ok s' →
    JMInv s' := by
  induction docs with
  | nil =>
      intro s s' hinv h
      simp only [List.foldlM_nil, pure, Except.pure, Except.ok.injEq] at h
      rw [← h]; exact hinv
  | cons td rest ih =>
      intro s s' hinv h
      rw [List.foldlM_cons] at h
      cases hadd : addDocument td.1 td.2 s with
      | error e => rw [hadd] at h; simp [Except.map, Except.bind, bind] at h
      | ok p =>
          rw [hadd] at h
          simp only [Except.map, bind, Except.bind] at h
          exact ih p.2 s' (addDocument_inv td.1 td.2 s p.1 p.2 hinv
            (by rw [hadd])) h

theorem runSession_inv (tsO tsOd : String)
    (docs : List (String × DocumentoCommerciale)) (tsC tsCd : String)
    (s : JMState) (r : CloseResult) (s' : JMState)
    (hinv : JMInv s)
    (h : runSession tsO tsOd docs tsC tsCd s = .ok (r, s')) : JMInv s' := by
  unfold runSession at h
  cases hopen : openCash tsO tsOd s with
  | error e => rw [hopen] at h; simp [bind, Except.bind] at h
  | ok p =>
      obtain ⟨h1, s1⟩ := p
      rw [hopen] at h
      simp only [bind, Except.bind] at h
      cases hfold : docs.foldlM
          (fun st td => (addDocument td.1 td.2 st).map (·.2)) s1 with
      | error e => rw [hfold] at h; simp [bind, Except.bind] at h
      | ok s2 =>
          rw [hfold] at h
          simp only [bind, Except.bind] at h
          exact closeCash_inv tsC tsCd s2 r s'
            (addDocs_inv docs s1 s2
              (openCash_inv tsO tsOd s h1 s1 hinv hopen) hfold) h

theorem verifyFrom_mutate (l1 : List JournalEntry) :
    ∀ (prev : HashV) (e : JournalEntry) (l2 : List JournalEntry)
      (e' : JournalEntry),
    verifyFrom prev (l1 ++ e :: l2) = true →
    e'.type = e.type → e'.previousHash = e.previousHash →
    e'.hash = e.hash →
    (e'.timestamp ≠ e.timestamp ∨ e'.data ≠ e.data) →
    verifyFrom prev (l1 ++ e' :: l2) = false := by
  induction l1 with
  | nil =>
      intro prev e l2 e' hok hty hprev hh hne
      rw [List.nil_append, verifyFrom_cons] at hok ⊢
      by_cases h1 : e.previousHash ≠ prev
      · rw [if_pos h1] at hok; exact absurd hok (by simp)
      · rw [if_neg h1] at hok
        by_cases h2 : calculateHash e.type e.timestamp e.data e.previousHash ≠
            e.hash
        · rw [if_pos h2] at hok; exact absurd hok (by simp)
        · push_neg at h1 h2
          rw [if_neg (by rw [hprev]; simpa using h1)]
          rw [if_pos]
          rw [hty, hprev, hh, ← h2]
          simp only [calculateHash, ne_eq, HashV.digest.injEq]
          intro hcontra
          rcases hne with hne | hne
          · exact hne hcontra.2.1
          · exact hne hcontra.2.2.1
  | cons a rest ih =>
      intro prev e l2 e' hok hty hprev hh hne
      rw [List.cons_append, verifyFrom_cons] at hok
      rw [List.cons_append, verifyFrom_cons]
      by_cases h1 : a.previousHash ≠ prev
      · rw [if_pos h1] at hok; exact absurd hok (by simp)
      · rw [if_neg h1] at hok ⊢
        by_cases h2 : calculateHash a.type a.timestamp a.data a.previousHash ≠
            a.hash
        · rw [if_pos h2] at hok; exact absurd hok (by simp)
        · rw [if_neg h2] at hok ⊢
          exact ih a.hash e l2 e' hok hty hprev hh hne

/-! ## C1, C3, C10 — journal manager theorems -/

/-- C10: `verify()` on a freshly constructed `JournalManager` (no entries)
returns true: the walk over an empty entry sequence passes vacuously. -/
theorem c10_verify_empty_journal : JMState.init.verify = true := rfl

/-- C1: a journal produced by openCash → addDocument × N → closeCash
verifies, and mutating any single entry's timestamp or data payload after
the fact (keeping its stored hash and link) makes `verify()` return
false. -/
theorem c1_chain_integrity (tsO tsOd tsC tsCd : String)
    (docs : List (String × DocumentoCommerciale)) (r : CloseResult)
    (s : JMState)
    (hrun : runSession tsO tsOd docs tsC tsCd JMState.init = .ok (r, s))
    (l1 : List JournalEntry) (e : JournalEntry) (l2 : List JournalEntry)
    (e' : JournalEntry)
    (hsplit : s.entries = l1 ++ e :: l2)
    (hty : e'.type = e.type) (hprev : e'.previousHash = e.previousHash)
    (hh : e'.hash = e.hash)
    (hne : e'.timestamp ≠ e.timestamp ∨ e'.data ≠ e.data) :
    s.verify = true ∧ verifyFrom .genesis (l1 ++ e' :: l2) = false := by
  have hinv : JMInv s :=
    runSession_inv tsO tsOd docs tsC tsCd JMState.init r s ⟨rfl, rfl⟩ hrun
  refine ⟨hinv.1, ?_⟩
  have hok : verifyFrom .genesis (l1 ++ e :: l2) = true := by
    rw [← hsplit]; exact hinv.1
  exact verifyFrom_mutate l1 .genesis e l2 e' hok hty hprev hh hne

/-- Witness for C1: the one-document session verifies, and tampering with
the DOCUMENT entry's timestamp breaks verification. -/
theorem c1_chain_integrity_witness :
    w1State.verify = true ∧
    verifyFrom .genesis ([w1Open] ++ w1Mut :: [w1Close]) = false :=
  c1_chain_integrity "t1" "t1" "t3" "t3" [("t2", exDocA)] w1Result w1State
    rfl [w1Open] w1Doc [w1Close] w1Mut (by decide) rfl rfl rfl
    (Or.inl (by decide))

/-- C3 (amended): `closeCash` fails when the session is not open; when it
succeeds the session was open, and it returns `totalDocuments` equal to the
number of DC entries in the WHOLE `entries` array and `totalAmount` equal
to the sum of their amounts — including DOCUMENT entries from earlier
sessions when the same journal instance is reused. -/
theorem c3_close_aggregates (ts tsd : String) (s : JMState) :
    (s.isOpen = false → closeCash ts tsd s = .error "Cash register not open") ∧
    (∀ (r : CloseResult) (s' : JMState), closeCash ts tsd s = .ok (r, s') →
      s.isOpen = true ∧
      r.totalDocuments = (s.entries.filter (fun e => e.type = .DC)).length ∧
      r.totalAmount = (s.entries.filter (fun e => e.type = .DC)).foldl
        (fun sum e => sum + docAmount e.data) 0) := by
  constructor
  · intro hs
    simp [closeCash, hs]
  · intro r s' hok
    by_cases hs : s.isOpen
    · simp only [closeCash, hs, Bool.not_true, Bool.false_eq_true, if_false,
        Except.ok.injEq, Prod.mk.injEq] at hok
      refine ⟨hs, ?_, ?_⟩
      · rw [← hok.1]
      · rw [← hok.1]
    · simp [closeCash, hs] at hok

/-- Witness for C3's theorem: closing the reused journal's second session
succeeds and aggregates over the whole entry array. -/
theorem c3_close_aggregates_witness :
    c3OpenState.isOpen = true ∧
    c3Wr.totalDocuments =
      (c3PreClose.entries.filter (fun e => e.type = .DC)).length ∧
    c3Wr.totalAmount = (c3PreClose.entries.filter (fun e => e.type = .DC)).foldl
      (fun sum e => sum + docAmount e.data) 0 := by
  have h := (c3_close_aggregates "t6" "t6" c3PreClose).2 c3Wr c3Ws rfl
  exact ⟨by decide, h.2.1, h.2.2⟩

/-- Counterexample for C3 as stated: after a first session (one 5.00 €
document) the same journal instance is reused for a second session with one
3.00 € document; the second `closeCash` reports 2 documents and 8.00 € —
it counts the first session's document — where the claim requires 1
document and 3.00 €. -/
theorem c3_counterexample :
    c3Result2.totalDocuments = 2 ∧ c3Result2.totalAmount = 8 ∧
    ¬(c3Result2.totalDocuments = 1 ∧ c3Result2.totalAmount = 3) := by
  decide

/-! ## C5, C6 — document builder theorems -/

/-- C5 (amended): `build` performs no input validation and returns a
receipt for every input (one `dettaglioLinee` entry per input line); for an
empty line list it returns a receipt with no lines, no VAT summary and a
zero total, and a negative unit price flows through unchecked. -/
theorem c5_build_never_fails (cfg : BuilderConfig) (lines : List DocumentLine)
    (n ts : String) :
    (build cfg lines n ts).dettaglioLinee.length = lines.length ∧
    (lines = [] →
      (build cfg lines n ts).dettaglioLinee = [] ∧
      (build cfg lines n ts).datiRiepilogo = [] ∧
      (build cfg lines n ts).importoTotale = 0) := by
  constructor
  · simp [build, List.enum_length]
  · intro h
    subst h
    refine ⟨rfl, rfl, ?_⟩
    show round2 0 = 0
    rfl

/-- Witness for C5's theorem at the empty input. -/
theorem c5_build_never_fails_witness :
    (build exCfg [] "000001" exTs).dettaglioLinee = [] ∧
    (build exCfg [] "000001" exTs).datiRiepilogo = [] ∧
    (build exCfg [] "000001" exTs).importoTotale = 0 :=
  (c5_build_never_fails exCfg [] "000001" exTs).2 rfl

/-- Counterexample for C5 as stated: `build` does not fail on the inputs
the claim says it must reject — the empty line list yields a receipt (no
lines, zero total), and a line with a negative unit price yields a receipt
with a negative total. -/
theorem c5_counterexample :
    (build exCfg [] "000001" exTs).dettaglioLinee = [] ∧
    (build exCfg [] "000001" exTs).importoTotale = 0 ∧
    (build exCfg
      [{ description := "item", quantity := 1, unitPrice := -1, vatRate := 10 }]
      "000001" exTs).importoTotale = -1 ∧
    (build exCfg
      [{ description := "item", quantity := 1, unitPrice := -1, vatRate := 10 }]
      "000001" exTs).dettaglioLinee.length = 1 := by
  decide

theorem sumPairs_addVatLine (gs : List (ℚ × ℚ × ℚ)) :
    ∀ (rate a b : ℚ), sumPairs (addVatLine gs rate a b) = sumPairs gs + (a + b) := by
  induction gs with
  | nil => intro rate a b; simp [addVatLine, sumPairs]
  | cons g rest ih =>
      intro rate a b
      obtain ⟨r, imp, ta⟩ := g
      by_cases h : r = rate
      · simp only [addVatLine, if_pos h, sumPairs, List.map_cons, List.sum_cons]
        ring
      · simp only [addVatLine, if_neg h, sumPairs, List.map_cons, List.sum_cons]
        have := ih rate a b
        simp only [sumPairs] at this
        rw [this]
        ring

theorem vatGroups_sumPairs (lines : List DocumentLine) :
    ∀ (gs : List (ℚ × ℚ × ℚ)),
    sumPairs (lines.foldl
      (fun gs line =>
        let total := lineTotal line
        let taxable := total / (1 + line.vatRate / 100)
        let tax := total - taxable
        addVatLine gs line.vatRate taxable tax) gs) =
    sumPairs gs + (lines.map lineTotal).sum := by
  induction lines with
  | nil => intro gs; simp
  | cons line rest ih =>
      intro gs
      simp only [List.foldl_cons, List.map_cons, List.sum_cons]
      rw [ih, sumPairs_addVatLine]
      ring

theorem foldl_add_eq_sum {α : Type} (f : α → ℚ) (l : List α) :
    ∀ (init : ℚ), l.foldl (fun s x => s + f x) init = init + (l.map f).sum := by
  induction l with
  | nil => intro init; simp
  | cons x rest ih =>
      intro init
      simp only [List.foldl_cons, List.map_cons, List.sum_cons]
      rw [ih]
      ring

theorem round2_pair_bound (a b : ℚ) :
    |round2 a + round2 b - (a + b)| ≤ 1 / 100 := by
  have hm1 : ((⌊a * 100 + 1 / 2⌋ : ℤ) : ℚ) ≤ a * 100 + 1 / 2 :=
    Int.floor_le _
  have hm2 : a * 100 + 1 / 2 - 1 < ((⌊a * 100 + 1 / 2⌋ : ℤ) : ℚ) :=
    Int.sub_one_lt_floor _
  have hn1 : ((⌊b * 100 + 1 / 2⌋ : ℤ) : ℚ) ≤ b * 100 + 1 / 2 :=
    Int.floor_le _
  have hn2 : b * 100 + 1 / 2 - 1 < ((⌊b * 100 + 1 / 2⌋ : ℤ) : ℚ) :=
    Int.sub_one_lt_floor _
  rw [round2, round2, abs_le]
  constructor <;> linarith

theorem round2_half_bound (x : ℚ) : |round2 x - x| ≤ 1 / 200 := by
  have h1 : ((⌊x * 100 + 1 / 2⌋ : ℤ) : ℚ) ≤ x * 100 + 1 / 2 := Int.floor_le _
  have h2 : x * 100 + 1 / 2 - 1 < ((⌊x * 100 + 1 / 2⌋ : ℤ) : ℚ) :=
    Int.sub_one_lt_floor _
  rw [round2, abs_le]
  constructor <;> linarith

theorem groups_round_bound (gs : List (ℚ × ℚ × ℚ)) :
    |(gs.map (fun g => round2 g.2.1 + round2 g.2.2)).sum - sumPairs gs| ≤
      (gs.length : ℚ) / 100 := by
  induction gs with
  | nil => simp [sumPairs]
  | cons g rest ih =>
      simp only [List.map_cons, List.sum_cons, sumPairs, List.length_cons]
      have hpair := round2_pair_bound g.2.1 g.2.2
      have hsum : |(rest.map (fun g => round2 g.2.1 + round2 g.2.2)).sum -
          sumPairs rest| ≤ (rest.length : ℚ) / 100 := ih
      simp only [sumPairs] at hsum
      have htri := abs_add (round2 g.2.1 + round2 g.2.2 - (g.2.1 + g.2.2))
        ((rest.map (fun g => round2 g.2.1 + round2 g.2.2)).sum -
          (rest.map (fun g => g.2.1 + g.2.2)).sum)
      have harrange : round2 g.2.1 + round2 g.2.2 +
          (rest.map (fun g => round2 g.2.1 + round2 g.2.2)).sum -
          (g.2.1 + g.2.2 + (rest.map (fun g => g.2.1 + g.2.2)).sum) =
          (round2 g.2.1 + round2 g.2.2 - (g.2.1 + g.2.2)) +
          ((rest.map (fun g => round2 g.2.1 + round2 g.2.2)).sum -
            (rest.map (fun g => g.2.1 + g.2.2)).sum) := by ring
      rw [harrange]
      push_cast
      calc |_ + _| ≤ _ := htri
        _ ≤ 1 / 100 + (rest.length : ℚ) / 100 := by linarith
        _ ≤ ((rest.length : ℚ) + 1) / 100 := by ring_nf; linarith

theorem build_importoTotale (cfg : BuilderConfig) (lines : List DocumentLine)
    (n ts : String) :
    (build cfg lines n ts).importoTotale =
      round2 (lines.foldl (fun sum line => sum + lineTotal line) 0) := rfl

theorem build_datiRiepilogo (cfg : BuilderConfig) (lines : List DocumentLine)
    (n ts : String) :
    (build cfg lines n ts).datiRiepilogo =
      (vatGroups lines).map (fun g =>
        { aliquotaIVA := some g.1, natura := none, imponibile := round2 g.2.1
          imposta := round2 g.2.2 : Riepilogo }) := rfl

/-- C6 (amended): for every receipt the builder produces, `totalAmount`
differs from the sum over its VAT summary groups of `taxable + tax` by at
most 0.01 PER GROUP plus the 0.005 rounding slack of the total — i.e. by
at most `G/100 + 1/200` where `G` is the number of VAT groups.  (The flat
0.01 tolerance of the claim holds only for receipts with a single VAT
group; see the counterexample.) -/
theorem c6_vat_reconciliation (cfg : BuilderConfig) (lines : List DocumentLine)
    (n ts : String) :
    |(build cfg lines n ts).importoTotale -
      ((build cfg lines n ts).datiRiepilogo.map
        (fun r => r.imponibile + r.imposta)).sum| ≤
    ((build cfg lines n ts).datiRiepilogo.length : ℚ) / 100 + 1 / 200 := by
  rw [build_importoTotale, build_datiRiepilogo, List.map_map, List.length_map]
  have hT : lines.foldl (fun sum line => sum + lineTotal line) 0 =
      (lines.map lineTotal).sum := by
    rw [foldl_add_eq_sum]; ring
  have hmass : sumPairs (vatGroups lines) = (lines.map lineTotal).sum := by
    have := vatGroups_sumPairs lines []
    simpa [vatGroups, sumPairs] using this
  rw [hT]
  show |round2 (lines.map lineTotal).sum -
      ((vatGroups lines).map (fun g => round2 g.2.1 + round2 g.2.2)).sum| ≤
    ((vatGroups lines).length : ℚ) / 100 + 1 / 200
  set T := (lines.map lineTotal).sum with hTdef
  set S := ((vatGroups lines).map (fun g => round2 g.2.1 + round2 g.2.2)).sum
    with hSdef
  have hround : |round2 T - T| ≤ 1 / 200 := round2_half_bound T
  have hgroups : |S - T| ≤ ((vatGroups lines).length : ℚ) / 100 := by
    have := groups_round_bound (vatGroups lines)
    rw [hmass] at this
    simpa [hSdef] using this
  have htri := abs_add (round2 T - T) (T - S)
  have harr : round2 T - T + (T - S) = round2 T - S := by ring
  rw [harr] at htri
  have habs : |T - S| = |S - T| := abs_sub_comm T S
  calc |round2 T - S| ≤ |round2 T - T| + |T - S| := htri
    _ ≤ 1 / 200 + ((vatGroups lines).length : ℚ) / 100 := by
        rw [habs]; linarith
    _ = ((vatGroups lines).length : ℚ) / 100 + 1 / 200 := by ring

/-- Counterexample for C6 as stated: for the two-group receipt built from
`c6Lines` the total is 0.09 € while the VAT summary groups sum to 0.11 €,
a 0.02 € discrepancy exceeding the claimed flat 0.01 tolerance. -/
theorem c6_counterexample :
    ¬(|(build exCfg c6Lines "000001" exTs).importoTotale -
        ((build exCfg c6Lines "000001" exTs).datiRiepilogo.map
          (fun r => r.imponibile + r.imposta)).sum| ≤ 1 / 100) := by
  decide

/-! ## PEL ingestion lemmas and C4 -/

theorem generate_anomalies (j : JournalR) (now : String) (st : PELState) :
    (generateDailyReceipts j now st).anomalies = st.anomalies := by
  rcases hd : listDocuments st j.identificativoPEM j.dataRiferimento
      j.dataRiferimento with _ | ⟨d0, rest⟩ <;>
    simp [generateDailyReceipts, hd]

theorem generate_journals (j : JournalR) (now : String) (st : PELState) :
    (generateDailyReceipts j now st).journals = st.journals := by
  rcases hd : listDocuments st j.identificativoPEM j.dataRiferimento
      j.dataRiferimento with _ | ⟨d0, rest⟩ <;>
    simp [generateDailyReceipts, hd]

theorem generate_documents (j : JournalR) (now : String) (st : PELState) :
    (generateDailyReceipts j now st).documents = st.documents := by
  rcases hd : listDocuments st j.identificativoPEM j.dataRiferimento
      j.dataRiferimento with _ | ⟨d0, rest⟩ <;>
    simp [generateDailyReceipts, hd]

/-- C4: a journal that passes required-field validation but fails the
integrity check is still persisted, an integrity anomaly is recorded, and
the route responds 200; the route responds 400 exactly when required-field
validation fails, in which case nothing is stored. -/
theorem c4_integrity_forensic (now : String) (j : JournalR) (st : PELState) :
    ((postJournal now j st).1.status = 400 ↔ validateJournal j = false) ∧
    (validateJournal j = false → (postJournal now j st).2 = st) ∧
    (validateJournal j = true → verifyJournalIntegrity j = false →
      (postJournal now j st).1.status = 200 ∧
      (postJournal now j st).2.anomalies = st.anomalies ++
        [{ type := "JOURNAL_INTEGRITY_ERROR", pemId := j.identificativoPEM
           details := "Journal for " ++ j.dataRiferimento ++
             " failed integrity check"
           timestamp := now }] ∧
      j ∈ (postJournal now j st).2.journals) := by
  by_cases hv : validateJournal j
  · refine ⟨?_, ?_, ?_⟩
    · simp [postJournal, hv]
    · intro hcontra; rw [hv] at hcontra; exact absurd hcontra (by simp)
    · intro _ hint
      refine ⟨by simp [postJournal, hv], ?_, ?_⟩
      · simp [postJournal, hv, hint, generate_anomalies]
      · simp only [postJournal, hv, Bool.not_true, Bool.false_eq_true,
          if_false, hint, if_true, generate_journals]
        simp
  · refine ⟨?_, ?_, ?_⟩
    · simp [postJournal, hv]
    · intro _; simp [postJournal, hv]
    · intro hcontra; exact absurd hcontra hv

/-- Witness for C4: the mis-numbered journal `c4BadJournal` is accepted
with 200, recorded as an anomaly and persisted. -/
theorem c4_integrity_forensic_witness :
    (postJournal "now" c4BadJournal exPELState).1.status = 200 ∧
    (postJournal "now" c4BadJournal exPELState).2.anomalies =
      exPELState.anomalies ++
      [{ type := "JOURNAL_INTEGRITY_ERROR"
         pemId := c4BadJournal.identificativoPEM
         details := "Journal for " ++ c4BadJournal.dataRiferimento ++
           " failed integrity check"
         timestamp := "now" }] ∧
    c4BadJournal ∈ (postJournal "now" c4BadJournal exPELState).2.journals :=
  (c4_integrity_forensic "now" c4BadJournal exPELState).2.2 (by decide)
    (by decide)

/-! ## C2 — idempotent aggregation -/

theorem listDocuments_eq_of_documents (st st' : PELState)
    (h : st'.documents = st.documents) (p a b : String) :
    listDocuments st' p a b = listDocuments st p a b := by
  simp [listDocuments, h]

theorem postJournal_documents (now : String) (j : JournalR) (st : PELState) :
    (postJournal now j st).2.documents = st.documents := by
  by_cases hv : validateJournal j
  · cases hvi : verifyJournalIntegrity j <;>
      simp [postJournal, hv, hvi, generate_documents]
  · simp [postJournal, hv]

theorem generate_daily_eq (j : JournalR) (now : String) (st st2 : PELState)
    (d0 : DocumentoCommerciale) (rest : List DocumentoCommerciale)
    (hdoc2 : st2.documents = st.documents)
    (hdr : st2.dailyReceipts = st.dailyReceipts)
    (hd : listDocuments st j.identificativoPEM j.dataRiferimento
      j.dataRiferimento = d0 :: rest) :
    (generateDailyReceipts j now st2).dailyReceipts =
      saveDailyReceipts (buildCorrispettivi j now d0 (d0 :: rest))
        st.dailyReceipts := by
  have h2 : listDocuments st2 j.identificativoPEM j.dataRiferimento
      j.dataRiferimento = d0 :: rest := by
    rw [listDocuments_eq_of_documents st st2 hdoc2]; exact hd
  simp [generateDailyReceipts, h2, hdr]

theorem postJournal_daily (now : String) (j : JournalR) (st : PELState)
    (d0 : DocumentoCommerciale) (rest : List DocumentoCommerciale)
    (hval : validateJournal j = true)
    (hd : listDocuments st j.identificativoPEM j.dataRiferimento
      j.dataRiferimento = d0 :: rest) :
    (postJournal now j st).2.dailyReceipts =
      saveDailyReceipts (buildCorrispettivi j now d0 (d0 :: rest))
        st.dailyReceipts := by
  cases hvi : verifyJournalIntegrity j <;>
    · simp only [postJournal, hval, hvi, Bool.not_true, Bool.not_false,
        Bool.false_eq_true, if_false, if_true, Bool.true_eq_false]
      exact generate_daily_eq j now st _ d0 rest rfl rfl hd

theorem filter_save_eq (d : CorrGiornalieri) (tbl : List CorrGiornalieri) :
    (saveDailyReceipts d tbl).filter (fun e => dailyKey e = dailyKey d) =
      [d] := by
  simp only [saveDailyReceipts, List.filter_append]
  have h1 : (tbl.filter (fun e => dailyKey e ≠ dailyKey d)).filter
      (fun e => dailyKey e = dailyKey d) = [] := by
    rw [List.filter_eq_nil_iff]
    intro a ha
    have := List.of_mem_filter ha
    simp only [decide_not, Bool.not_eq_true', decide_eq_false_iff_not] at this
    simp [this]
  rw [h1]
  simp [List.filter]

theorem find?_save (d : CorrGiornalieri) (tbl : List CorrGiornalieri) :
    (saveDailyReceipts d tbl).find? (fun e => dailyKey e = dailyKey d) =
      some d := by
  simp only [saveDailyReceipts]
  rw [List.find?_append]
  have h1 : (tbl.filter (fun e => dailyKey e ≠ dailyKey d)).find?
      (fun e => dailyKey e = dailyKey d) = none := by
    rw [List.find?_eq_none]
    intro a ha
    have := List.of_mem_filter ha
    simp only [decide_not, Bool.not_eq_true', decide_eq_false_iff_not] at this
    simp [this]
  rw [h1]
  simp [List.find?]

/-- C2: ingesting the same journal twice through the PEL journal route (for
a key with at least one persisted document) leaves exactly one daily report
for the natural key, whose totals (document count, total amount, VAT
breakdown) are identical after the first and the second ingestion. -/
theorem c2_idempotent_aggregation (st : PELState) (j : JournalR)
    (now1 now2 : String)
    (hval : validateJournal j = true)
    (hdocs : listDocuments st j.identificativoPEM j.dataRiferimento
      j.dataRiferimento ≠ []) :
    ((postJournal now2 j (postJournal now1 j st).2).2.dailyReceipts.filter
        (fun d => dailyKey d = aggKeyOf st j)).length = 1 ∧
    ((postJournal now1 j st).2.dailyReceipts.find?
        (fun d => dailyKey d = aggKeyOf st j)).map dailyTotals =
      ((postJournal now2 j (postJournal now1 j st).2).2.dailyReceipts.find?
        (fun d => dailyKey d = aggKeyOf st j)).map dailyTotals ∧
    ((postJournal now1 j st).2.dailyReceipts.find?
        (fun d => dailyKey d = aggKeyOf st j)) ≠ none := by
  rcases hd : listDocuments st j.identificativoPEM j.dataRiferimento
      j.dataRiferimento with _ | ⟨d0, rest⟩
  · exact absurd hd hdocs
  have h1 : (postJournal now1 j st).2.dailyReceipts =
      saveDailyReceipts (buildCorrispettivi j now1 d0 (d0 :: rest))
        st.dailyReceipts :=
    postJournal_daily now1 j st d0 rest hval hd
  have hdoc1 : (postJournal now1 j st).2.documents = st.documents :=
    postJournal_documents now1 j st
  have hd1 : listDocuments (postJournal now1 j st).2 j.identificativoPEM
      j.dataRiferimento j.dataRiferimento = d0 :: rest := by
    rw [listDocuments_eq_of_documents st _ hdoc1]; exact hd
  have h2 : (postJournal now2 j (postJournal now1 j st).2).2.dailyReceipts =
      saveDailyReceipts (buildCorrispettivi j now2 d0 (d0 :: rest))
        (saveDailyReceipts (buildCorrispettivi j now1 d0 (d0 :: rest))
          st.dailyReceipts) := by
    rw [postJournal_daily now2 j (postJournal now1 j st).2 d0 rest hval hd1,
      h1]
  have hkey2 : aggKeyOf st j =
      dailyKey (buildCorrispettivi j now2 d0 (d0 :: rest)) := by
    simp [aggKeyOf, hd, dailyKey, buildCorrispettivi]
  have hkey1 : aggKeyOf st j =
      dailyKey (buildCorrispettivi j now1 d0 (d0 :: rest)) := by
    simp [aggKeyOf, hd, dailyKey, buildCorrispettivi]
  refine ⟨?_, ?_, ?_⟩
  · rw [h2]
    simp only [hkey2]
    rw [filter_save_eq]
    rfl
  · rw [h1, h2]
    simp only [hkey1]
    rw [find?_save]
    simp only [show dailyKey (buildCorrispettivi j now1 d0 (d0 :: rest)) =
      dailyKey (buildCorrispettivi j now2 d0 (d0 :: rest)) from rfl]
    rw [find?_save]
    rfl
  · rw [h1]
    simp only [hkey1]
    rw [find?_save]
    simp

/-- Witness for C2: double ingestion of `c2Journal` over a state holding
the two scenario receipts keeps a single daily report with stable totals. -/
theorem c2_idempotent_aggregation_witness :
    ((postJournal "n2" c2Journal
        (postJournal "n1" c2Journal exPELState).2).2.dailyReceipts.filter
        (fun d => dailyKey d = aggKeyOf exPELState c2Journal)).length = 1 ∧
    ((postJournal "n1" c2Journal exPELState).2.dailyReceipts.find?
        (fun d => dailyKey d = aggKeyOf exPELState c2Journal)).map
        dailyTotals =
      ((postJournal "n2" c2Journal
        (postJournal "n1" c2Journal exPELState).2).2.dailyReceipts.find?
        (fun d => dailyKey d = aggKeyOf exPELState c2Journal)).map
        dailyTotals ∧
    ((postJournal "n1" c2Journal exPELState).2.dailyReceipts.find?
        (fun d => dailyKey d = aggKeyOf exPELState c2Journal)) ≠ none :=
  c2_idempotent_aggregation exPELState c2Journal "n1" "n2" (by decide)
    (by decide)

/-! ## C7 — concrete end-to-end scenario -/

/-- C7 (amended): the scenario (open; emit A = 2 × 2.50 € at 10 %; emit
B = 1 × 5.00 € at 10 %; close) yields `totalDocuments = 2`,
`totalAmount = 10.00`, a verifying journal, and a single VAT-10 % group in
the PEL aggregation with `taxable = 9.10`, `tax = 0.90` (not 9.09/0.91:
each receipt's group is rounded before the PEL sums them) and overall
`totalAmount = 10.00` over 2 documents. -/
theorem c7_scenario :
    c7Summary.totalDocuments = 2 ∧
    c7Summary.totalAmount = 10 ∧
    c7Pem.journal.verify = true ∧
    c7Daily.riepilogoIVA =
      [{ imponibile := 91 / 10, imposta := 9 / 10, aliquotaIVA := some 10
         natura := none }] ∧
    c7Daily.importoTotale = 10 ∧
    c7Daily.numeroDocumenti = 2 := by
  decide

/-- Counterexample for C7 as stated: the aggregated VAT-10 % group carries
`taxable = 9.10` and `tax = 0.90`, not the claimed 9.09/0.91. -/
theorem c7_counterexample :
    c7Daily.riepilogoIVA.map (fun g => (g.imponibile, g.imposta)) =
      [((91 : ℚ) / 10, (9 : ℚ) / 10)] ∧
    ¬(c7Daily.riepilogoIVA.map (fun g => (g.imponibile, g.imposta)) =
      [((909 : ℚ) / 100, (91 : ℚ) / 100)]) := by
  decide

/-! ## C8 — closeSession -/

/-- C8 (amended): `closeSession` fails unless the session is open;
otherwise it seals the journal FIRST (`closeCash`), then retries each
unsynced backlog document exactly once, then pushes the sealed journal,
and returns the summary `{totalDocuments, totalAmount, journalSynced,
unsyncedDocuments}`; a failed journal push only flips `journalSynced`,
it never fails the close. -/
theorem c8_close_session (sendJournalOk : Bool) (tsC tsCd : String)
    (s : PEMState) :
    (s.isSessionOpen = false →
      closeSession sendJournalOk tsC tsCd s = .error "Session not open") ∧
    (∀ (r : CloseResult) (s' : JMState),
      closeCash tsC tsCd s.journal = .ok (r, s') →
      s.isSessionOpen = true →
      closeSession sendJournalOk tsC tsCd s = .ok
        ({ totalDocuments := r.totalDocuments
           totalAmount := r.totalAmount
           journalSynced := sendJournalOk
           unsyncedDocuments := s.unsyncedDocuments.length },
         { s with isSessionOpen := false, journal := s' },
         .seal :: (s.unsyncedDocuments.map .retry ++ [.pushJournal]))) := by
  constructor
  · intro hs
    simp [closeSession, hs]
  · intro r s' hcc hopen
    simp only [closeSession, hopen, Bool.not_true, Bool.false_eq_true,
      if_false, hcc, bind, Except.bind]

/-- Witness for C8's theorem: closing the backlog state seals, then
retries the single backlog document, then pushes the journal. -/
theorem c8_close_session_witness :
    closeSession true "t9" "t9" c8State = .ok
      ({ totalDocuments := c8Wr.totalDocuments
         totalAmount := c8Wr.totalAmount
         journalSynced := true
         unsyncedDocuments := c8State.unsyncedDocuments.length },
       { c8State with isSessionOpen := false, journal := c8Wj },
       .seal :: (c8State.unsyncedDocuments.map .retry ++ [.pushJournal])) :=
  (c8_close_session true "t9" "t9" c8State).2 c8Wr c8Wj rfl (by decide)

/-- Counterexample for C8 as stated: the backlog state's close emits a
retry event, and not every retry precedes the seal event — the journal is
sealed before the backlog retry pass, where the claim requires the
retries to happen before sealing. -/
theorem c8_counterexample :
    c8Events.filter CloseEvent.isRetry ≠ [] ∧
    retriesPrecedeSeal c8Events = false := by
  decide

/-! ## C9 — audit job lifecycle -/

theorem foldl_resolve_none (resolveHash : String → Option DocumentoCommerciale)
    (hs : List String) :
    (∀ h ∈ hs, resolveHash h = none) →
    ∀ (acc : List AuditFile),
    hs.foldl (fun fs h =>
      match resolveHash h with
      | none => fs
      | some d => fs ++ [documentAuditFile d]) acc = acc := by
  induction hs with
  | nil => intro _ acc; rfl
  | cons h rest ih =>
      intro hnone acc
      simp only [List.foldl_cons, hnone h (by simp)]
      exact ih (fun x hx => hnone x (by simp [hx])) acc

/-- C9: an audit job is created PROCESSING with no artifacts; the worker
flips it to READY only together with a nonempty artifact list (for both
journal and document audits), and a query with zero matching records
terminates the job UNAVAILABLE — never READY with an empty list. -/
theorem c9_audit_lifecycle (id : String) (kind : AuditKind)
    (queried : List JournalR)
    (resolveHash : String → Option DocumentoCommerciale)
    (criteriaDocs : List DocumentoCommerciale)
    (hashes : Option (List String)) (epid df dt : Option String) :
    (mkAuditJob id kind).status ≠ .pronta ∧
    (mkAuditJob id kind).files = [] ∧
    ((processJournalAudit queried (mkAuditJob id .journal)).status =
        .pronta →
      (processJournalAudit queried (mkAuditJob id .journal)).files ≠ []) ∧
    (queried = [] →
      (processJournalAudit queried (mkAuditJob id .journal)).status =
        .nonDisponibile) ∧
    ((processDocumentAudit resolveHash criteriaDocs hashes epid df dt
        (mkAuditJob id .dc)).status = .pronta →
      (processDocumentAudit resolveHash criteriaDocs hashes epid df dt
        (mkAuditJob id .dc)).files ≠ []) ∧
    (∀ hs, hashes = some hs → (∀ h ∈ hs, resolveHash h = none) →
      (processDocumentAudit resolveHash criteriaDocs hashes epid df dt
        (mkAuditJob id .dc)).status = .nonDisponibile) := by
  refine ⟨by simp [mkAuditJob], rfl, ?_, ?_, ?_, ?_⟩
  · intro hp
    cases hq : queried with
    | nil => rw [hq] at hp; simp [processJournalAudit, mkAuditJob] at hp
    | cons j rest => simp [processJournalAudit, hq]
  · intro hq
    subst hq
    simp [processJournalAudit]
  · intro hp
    cases hf : docAuditFiles resolveHash criteriaDocs hashes epid df dt with
    | nil => simp [processDocumentAudit, hf, mkAuditJob] at hp
    | cons f fs => simp [processDocumentAudit, hf]
  · intro hs hhash hnone
    have hf : docAuditFiles resolveHash criteriaDocs hashes epid df dt = [] := by
      rw [hhash]
      simp only [docAuditFiles]
      exact foldl_resolve_none resolveHash hs hnone []
    simp [processDocumentAudit, hf]

/-- Witness for C9: a journal audit with zero matches and a document audit
whose single hash resolves to nothing both terminate UNAVAILABLE. -/
theorem c9_audit_lifecycle_witness :
    (processJournalAudit [] (mkAuditJob "job1" .journal)).status =
      .nonDisponibile ∧
    (processDocumentAudit (fun _ => none) [] (some ["h1"]) none none none
      (mkAuditJob "job1" .dc)).status = .nonDisponibile :=
  ⟨(c9_audit_lifecycle "job1" .journal [] (fun _ => none) [] (some ["h1"])
      none none none).2.2.2.1 rfl,
   (c9_audit_lifecycle "job1" .journal [] (fun _ => none) [] (some ["h1"])
      none none none).2.2.2.2.2 ["h1"] rfl (by simp)⟩

end OpenADE
